import Mathlib

/-!
Shallow embedding of the `zero2prod` email client
(`src/email_client.rs`) and the subscription route stub
(`src/routes/subscriptions.rs`), together with proofs about the
serialized wire format, the HTTP send pipeline, and URL construction.

Library behaviour the source relies on (serde serialization, the
reqwest request pipeline, and the `url` crate's parse/join) is modelled
explicitly; each such model carries a doc comment saying what it models.
-/

namespace Zero2Prod

/-! ## JSON values, as produced by serde_json -/

/-- A JSON value, restricted to the constructors the serialized payload
uses: strings, arrays and objects with ordered string keys. -/
inductive Json where
  | str (s : String)
  | arr (elems : List Json)
  | obj (fields : List (String × Json))

/-- Key lookup on a JSON object, mirroring `serde_json::Value::get`
with a string key: `none` on non-objects and missing keys. -/
def Json.getKey : Json → String → Option Json
  | Json.obj fields, k => fields.lookup k
  | Json.str _, _ => none
  | Json.arr _, _ => none

/-! ## External collaborator types -/

/-- `SubscriberEmail` from `crate::domain`: a validated wrapper around a
string; `as_ref` exposes the inner string. -/
structure SubscriberEmail where
  email : String
deriving DecidableEq, Repr

/-- `SubscriberEmail::as_ref` (used via `.as_ref().to_owned()` and
`.as_ref().to_string()` in `send_email`). -/
def SubscriberEmail.as_ref (s : SubscriberEmail) : String := s.email

/-- `secrecy::Secret<String>`: a wrapper around a string that is only
read through `expose_secret`. -/
structure Secret where
  secret : String
deriving DecidableEq, Repr

/-- `secrecy::ExposeSecret::expose_secret`. -/
def Secret.expose_secret (s : Secret) : String := s.secret

/-! ## The serialized payload structs of src/email_client.rs -/

/-- `struct Sender { email: String, name: String }` (no serde rename
attribute, so its wire keys are the field names themselves). -/
structure Sender where
  email : String
  name : String
deriving DecidableEq, Repr

/-- `struct Recipient { email: String, name: String }` (no serde rename
attribute). -/
structure Recipient where
  email : String
  name : String
deriving DecidableEq, Repr

/-- `struct Message` with `#[serde(rename_all = "PascalCase")]`.
The Rust fields `from` and `to` are written `from_` and `to_` because
both are Lean keywords. -/
structure Message where
  from_ : Sender
  to_ : List Recipient
  subject : String
  text_part : String
  html_part : String
deriving DecidableEq, Repr

/-- `struct Messages { messages: Vec<Message> }` (no serde rename
attribute, so the single wire key is the field name `messages`). -/
structure Messages where
  messages : List Message
deriving DecidableEq, Repr

/-- Serde serialization of `Sender`: no rename attribute, keys are the
in-memory field names `email` and `name`. -/
def Sender.toJson (s : Sender) : Json :=
  Json.obj [("email", Json.str s.email), ("name", Json.str s.name)]

/-- Serde serialization of `Recipient`: no rename attribute, keys are
`email` and `name`. -/
def Recipient.toJson (r : Recipient) : Json :=
  Json.obj [("email", Json.str r.email), ("name", Json.str r.name)]

/-- Serde serialization of `Message`. The derive macro applies
`rename_all = "PascalCase"` to the field names at compile time:
`from` ↦ `From`, `to` ↦ `To`, `subject` ↦ `Subject`,
`text_part` ↦ `TextPart`, `html_part` ↦ `HtmlPart` (PascalCase
capitalizes each snake_case word, so `html_part` becomes `HtmlPart`,
not `HTMLPart`). -/
def Message.toJson (m : Message) : Json :=
  Json.obj
    [ ("From", m.from_.toJson)
    , ("To", Json.arr (m.to_.map Recipient.toJson))
    , ("Subject", Json.str m.subject)
    , ("TextPart", Json.str m.text_part)
    , ("HtmlPart", Json.str m.html_part) ]

/-- Serde serialization of `Messages`: no rename attribute, so the
top-level key is the in-memory field name `messages`. -/
def Messages.toJson (ms : Messages) : Json :=
  Json.obj [("messages", Json.arr (ms.messages.map Message.toJson))]

/-! ## A model of url::Url parsing and joining

`send_email` hands its URL string to reqwest, which parses it with the
`url` crate before any request is issued; the dead helper `create_url`
calls `Url::parse` and `Url::join` directly. The model below covers
absolute http/https URLs with an ASCII host and a slash-separated path,
which is the fragment these claims exercise. -/

/-- A parsed absolute URL: scheme, host (possibly with a port), and the
path as the list of segments after the leading slash. `url::Url`
normalizes an empty path to `/`, represented here as the single empty
segment. -/
structure Url where
  scheme : String
  host : String
  pathSegments : List String
deriving DecidableEq, Repr

/-- Splits a character list on a separator, keeping empty segments,
like splitting a path on `/`. -/
def splitSeg (sep : Char) : List Char → List (List Char)
  | [] => [[]]
  | c :: cs =>
    match splitSeg sep cs with
    | [] => [[]]
    | r :: rs => if c = sep then [] :: r :: rs else (c :: r) :: rs

/-- Strips a recognized scheme prefix (`http://` or `https://`),
returning the scheme and the remainder. -/
def stripScheme (s : List Char) : Option (String × List Char) :=
  if "http://".data.isPrefixOf s then some ("http", s.drop 7)
  else if "https://".data.isPrefixOf s then some ("https", s.drop 8)
  else none

/-- Characters the model accepts in a host: alphanumerics, dots,
hyphens and the port colon. -/
def validHostChar (c : Char) : Bool :=
  c.isAlphanum || c = '.' || c = '-' || c = ':'

/-- A host is valid when non-empty and made of host characters. -/
def hostOk (h : List Char) : Bool :=
  !h.isEmpty && h.all validHostChar

/-- Model of `url::Url::parse` on the http/https fragment: requires a
literal `http://` or `https://` prefix followed by a valid non-empty
host; everything from the first `/` on is the path. Any other string is
a parse error (`none`). -/
def parseUrl (s : String) : Option Url :=
  match stripScheme s.data with
  | none => none
  | some (scheme, rest) =>
    let h := rest.takeWhile (fun c => !(c = '/'))
    let p := rest.dropWhile (fun c => !(c = '/'))
    if hostOk h then
      some
        { scheme := scheme
        , host := String.mk h
        , pathSegments :=
            match p with
            | [] => [""]
            | _ :: tail => (splitSeg '/' tail).map String.mk }
    else none

/-- Model of `url::Url::join` for a plain relative segment such as
`"email"` (no slash, scheme, query or fragment): RFC 3986 merge drops
the base path's last segment and appends the reference segment. On an
http(s) base this join cannot fail. -/
def Url.join (u : Url) (segment : String) : Url :=
  { u with pathSegments := u.pathSegments.dropLast ++ [segment] }

/-- Serialization of a parsed URL back to a string, as `Url::as_str`
would render it (empty path renders as `/`). -/
def Url.toString (u : Url) : String :=
  u.scheme ++ "://" ++ u.host ++ "/" ++ String.intercalate "/" u.pathSegments

/-! ## The reqwest send pipeline -/

/-- What the network does with an issued request: a final response with
some status, a transport failure, or a timeout. Redirect following
happens inside this abstraction; a 3xx that reqwest does not follow is
delivered as a final `response`. -/
inductive TransportOutcome where
  | response (status : Nat)
  | transportError
  | timedOut
deriving DecidableEq, Repr

/-- The error kinds a `send_email` call can surface
(`reqwest::Error` variants observable here). -/
inductive SendError where
  | urlFormat
  | transport
  | timeout
  | httpStatus (status : Nat)
deriving DecidableEq, Repr

/-- An HTTP request as handed to the transport layer. -/
structure HttpRequest where
  method : String
  url : String
  basicAuth : Option (String × String)
  contentType : Option String
  body : Json

/-- The request assembled by
`post(url).basic_auth(user, Some(pass)).json(&body)`: an HTTP POST with
basic-auth credentials and, from `json(..)`, the `application/json`
content type. -/
def buildRequest (url : String) (user pass : String) (body : Json) : HttpRequest :=
  { method := "POST"
  , url := url
  , basicAuth := some (user, pass)
  , contentType := some "application/json"
  , body := body }

/-- How `send().await?.error_for_status()?` maps the transport outcome
of an issued request to the caller's result: `error_for_status` errors
exactly when the status is a client error (400–499) or a server error
(500–599); transport failures and timeouts become the corresponding
error kinds. The second component records the one issued request. -/
def dispatchOutcome (req : HttpRequest) :
    TransportOutcome → Except SendError Unit × List HttpRequest
  | TransportOutcome.response status =>
      if 400 ≤ status ∧ status < 600 then
        (Except.error (SendError.httpStatus status), [req])
      else (Except.ok (), [req])
  | TransportOutcome.transportError => (Except.error SendError.transport, [req])
  | TransportOutcome.timedOut => (Except.error SendError.timeout, [req])

/-- Model of the full reqwest chain used by `send_email`: reqwest
parses the URL while building the request, so an unparsable URL makes
`send()` fail with a URL-format builder error before anything reaches
the transport; otherwise exactly one request is issued and the outcome
is dispatched through `error_for_status`. -/
def httpPost (url : String) (user pass : String) (body : Json)
    (transport : HttpRequest → TransportOutcome) :
    Except SendError Unit × List HttpRequest :=
  match parseUrl url with
  | none => (Except.error SendError.urlFormat, [])
  | some _ =>
    dispatchOutcome (buildRequest url user pass body)
      (transport (buildRequest url user pass body))

/-! ## EmailClient -/

/-- The configuration of the underlying `reqwest::Client` that
`EmailClient::new` builds: a request timeout (in seconds). -/
structure HttpClient where
  timeout_secs : Nat
deriving DecidableEq, Repr

/-- `pub struct EmailClient` of src/email_client.rs. -/
structure EmailClient where
  http_client : HttpClient
  base_url : String
  sender : SubscriberEmail
  api_public_key : Secret
  api_private_key : Secret
deriving DecidableEq, Repr

/-- `EmailClient::new`: builds the inner client with a hard-coded
10-second timeout (the constructor takes no timeout argument) and
stores the remaining fields verbatim. It is total: construction cannot
fail. -/
def EmailClient.new (base_url : String) (sender : SubscriberEmail)
    (api_public_key : Secret) (api_private_key : Secret) : EmailClient :=
  { http_client := { timeout_secs := 10 }
  , base_url := base_url
  , sender := sender
  , api_public_key := api_public_key
  , api_private_key := api_private_key }

/-- The `request_body` value built inside `send_email`: one `Message`
from the client's sender (display name hard-coded to `"sender"`) to the
single recipient (display name hard-coded to `"recipient"`), wrapped in
`Messages`. -/
def EmailClient.request_body (self : EmailClient) (recipient : SubscriberEmail)
    (subject html_content text_content : String) : Messages :=
  { messages :=
      [ { from_ := { email := self.sender.as_ref, name := "sender" }
        , to_ := [{ email := recipient.as_ref, name := "recipient" }]
        , subject := subject
        , text_part := text_content
        , html_part := html_content } ] }

/-- `EmailClient::send_email`: concatenates `base_url` with `/email`
(`format!` on strings, not URL joining — the `create_url` call is
commented out in the source), serializes the payload and runs the
reqwest pipeline with basic auth taken from the two secrets. The
`transport` argument abstracts the network. -/
def EmailClient.send_email (self : EmailClient) (recipient : SubscriberEmail)
    (subject html_content text_content : String)
    (transport : HttpRequest → TransportOutcome) :
    Except SendError Unit × List HttpRequest :=
  let url := self.base_url ++ "/email"
  httpPost url self.api_public_key.expose_secret self.api_private_key.expose_secret
    (self.request_body recipient subject html_content text_content).toJson transport

/-- The dead helper `EmailClient::create_url`: parses the base URL and
joins the segment `email` onto it (never called by `send_email`). -/
def EmailClient.create_url (self : EmailClient) : Option Url :=
  (parseUrl self.base_url).map (fun base => base.join "email")

/-- `send_email` takes `&self` and assigns to no field, so the client
value after a call, modelled explicitly as the second component here,
is the unchanged `self`. -/
def EmailClient.send_email_post (self : EmailClient) (recipient : SubscriberEmail)
    (subject html_content text_content : String)
    (transport : HttpRequest → TransportOutcome) :
    (Except SendError Unit × List HttpRequest) × EmailClient :=
  (self.send_email recipient subject html_content text_content transport, self)

/-! ## The subscription route stub (src/routes/subscriptions.rs) -/

/-- `struct FormData { email: String, name: String }`. -/
structure FormData where
  email : String
  name : String
deriving DecidableEq, Repr

/-- An HTTP response as produced by the handler: a status code and a
body. -/
structure HttpResponse where
  status : Nat
  body : String
deriving DecidableEq, Repr

/-- `subscribe`: ignores the form and returns
`HttpResponse::Ok().finish()`, that is status 200 with an empty body. -/
def subscribe (_form : FormData) : HttpResponse :=
  { status := 200, body := "" }

/-! ## Concrete fixtures used by counterexamples and witnesses -/

/-- A concrete validated sender address. -/
def exSender : SubscriberEmail := { email := "alice@example.com" }

/-- A concrete validated recipient address. -/
def exRec : SubscriberEmail := { email := "bob@example.com" }

/-- A concrete client with a well-formed base URL. -/
def exClient : EmailClient :=
  EmailClient.new "http://example.com" exSender
    { secret := "pub-key" } { secret := "priv-key" }

/-- A transport that always answers 200. -/
def exTransport : HttpRequest → TransportOutcome :=
  fun _ => TransportOutcome.response 200

/-- The one request `exClient` issues for the fixture arguments. -/
def exReq : HttpRequest :=
  buildRequest "http://example.com/email" "pub-key" "priv-key"
    (exClient.request_body exRec "Hi" "<p>Hi</p>" "Hi").toJson

/-- The serialized body of the fixture call. -/
def exBody : Json := (exClient.request_body exRec "Hi" "<p>Hi</p>" "Hi").toJson

/-- First element of a JSON array, mirroring `messages.get(0)` in the
repository's own body matcher. -/
def Json.firstElem : Json → Option Json
  | Json.arr (x :: _) => some x
  | Json.arr [] => none
  | Json.str _ => none
  | Json.obj _ => none

/-- A client whose base URL is syntactically invalid, yet concatenates
with `/email` to the valid URL `http://email`. -/
def slipClient : EmailClient :=
  EmailClient.new "http:/" exSender { secret := "pub-key" } { secret := "priv-key" }

/-- A client whose base URL has no scheme, so that the concatenated URL
is also unparsable. -/
def localClient : EmailClient :=
  EmailClient.new "localhost" exSender { secret := "pub-key" } { secret := "priv-key" }

/-- A client whose valid base URL has a non-empty path without a
trailing slash, the shape on which join and concatenation diverge. -/
def joinClient : EmailClient :=
  EmailClient.new "http://example.com/api/v1" exSender
    { secret := "pub-key" } { secret := "priv-key" }

/-! ## Helper lemmas -/

/-- Whatever the transport outcome, the dispatched trace is the single
issued request. -/
theorem dispatchOutcome_trace (req : HttpRequest) (o : TransportOutcome) :
    (dispatchOutcome req o).2 = [req] := by
  cases o with
  | response status =>
      by_cases hs : 400 ≤ status ∧ status < 600 <;> simp [dispatchOutcome, hs]
  | transportError => rfl
  | timedOut => rfl

/-- Any request that reached the transport is exactly the one built
from the URL, the credentials and the body. -/
theorem mem_httpPost_trace {url user pass : String} {body : Json}
    {transport : HttpRequest → TransportOutcome} {req : HttpRequest}
    (h : req ∈ (httpPost url user pass body transport).2) :
    req = buildRequest url user pass body := by
  cases hp : parseUrl url with
  | none => simp [httpPost, hp] at h
  | some u =>
      simp only [httpPost, hp, dispatchOutcome_trace] at h
      exact List.mem_singleton.mp h

/-- Any request issued by `send_email` is the one built from the
concatenated URL, the two exposed secrets and the serialized body. -/
theorem mem_send_email_trace {c : EmailClient} {rec : SubscriberEmail}
    {subject html text : String} {transport : HttpRequest → TransportOutcome}
    {req : HttpRequest}
    (h : req ∈ (c.send_email rec subject html text transport).2) :
    req = buildRequest (c.base_url ++ "/email") c.api_public_key.expose_secret
      c.api_private_key.expose_secret
      (c.request_body rec subject html text).toJson := by
  simp only [EmailClient.send_email] at h
  exact mem_httpPost_trace h

/-- The fixture request is in the fixture call's trace. -/
theorem exReq_mem :
    exReq ∈ (exClient.send_email exRec "Hi" "<p>Hi</p>" "Hi" exTransport).2 := by
  have h : (exClient.send_email exRec "Hi" "<p>Hi</p>" "Hi" exTransport).2 = [exReq] := by
    rfl
  rw [h]
  exact List.mem_singleton.mpr rfl

/-! ## Claim theorems -/

/-- C1, counterexample: at a concrete call, the serialized body has no
top-level `Messages` key (the key is lowercase `messages`), the message
has no `HTMLPart` key (the key is `HtmlPart`), and the `From` object
has no `Email`/`Name` keys (its keys are lowercase `email`/`name`), so
the claimed all-first-letter-capitalized wire shape is false. -/
theorem wire_shape_counterexample :
    exBody.getKey "Messages" = none ∧
    (exBody.getKey "messages").isSome = true ∧
    ((exBody.getKey "messages").bind Json.firstElem).bind
      (fun m => m.getKey "HTMLPart") = none ∧
    (((exBody.getKey "messages").bind Json.firstElem).bind
      (fun m => m.getKey "HtmlPart")).isSome = true ∧
    (((exBody.getKey "messages").bind Json.firstElem).bind
      (fun m => m.getKey "From")).bind (fun f => f.getKey "Email") = none ∧
    ((((exBody.getKey "messages").bind Json.firstElem).bind
      (fun m => m.getKey "From")).bind (fun f => f.getKey "email")).isSome = true := by
  exact ⟨rfl, rfl, rfl, rfl, rfl, rfl⟩

/-- C1, amended: every request issued by `send_email` carries the body
`{"messages":[{"From":{"email":…,"name":"sender"},"To":[{"email":…,"name":"recipient"}],"Subject":…,"TextPart":…,"HtmlPart":…}]}`:
the `Message`-level keys are PascalCase (`From`, `To`, `Subject`,
`TextPart`, `HtmlPart`), while the top-level key and the sender and
recipient object keys are lowercase. -/
theorem send_email_wire_shape (c : EmailClient) (rec : SubscriberEmail)
    (subject html text : String) (transport : HttpRequest → TransportOutcome)
    (req : HttpRequest) (h : req ∈ (c.send_email rec subject html text transport).2) :
    req.body = Json.obj
      [ ("messages", Json.arr
          [ Json.obj
              [ ("From", Json.obj
                  [("email", Json.str c.sender.email), ("name", Json.str "sender")])
              , ("To", Json.arr
                  [Json.obj
                    [("email", Json.str rec.email), ("name", Json.str "recipient")]])
              , ("Subject", Json.str subject)
              , ("TextPart", Json.str text)
              , ("HtmlPart", Json.str html) ] ]) ] := by
  rw [mem_send_email_trace h]
  rfl

/-- C1 witness: the fixture request's body has the amended wire shape. -/
theorem send_email_wire_shape_witness :
    exReq.body = Json.obj
      [ ("messages", Json.arr
          [ Json.obj
              [ ("From", Json.obj
                  [("email", Json.str exClient.sender.email), ("name", Json.str "sender")])
              , ("To", Json.arr
                  [Json.obj
                    [("email", Json.str exRec.email), ("name", Json.str "recipient")]])
              , ("Subject", Json.str "Hi")
              , ("TextPart", Json.str "Hi")
              , ("HtmlPart", Json.str "<p>Hi</p>") ] ]) ] :=
  send_email_wire_shape exClient exRec "Hi" "<p>Hi</p>" "Hi" exTransport exReq exReq_mem

/-- C2, counterexample: with the transport delivering a final status
300 — not a 2xx — `send_email` returns `Ok(())`, because
`error_for_status` only rejects 4xx/5xx. -/
theorem non_2xx_success_counterexample :
    (exClient.send_email exRec "s" "h" "t"
      (fun _ => TransportOutcome.response 300)).1 = Except.ok () ∧
    ¬(200 ≤ 300 ∧ 300 < 300) := by
  exact ⟨rfl, by decide⟩

/-- C2, amended: when an HTTP response with a given status is received,
`send_email` returns `Ok(())` iff the status is not a client or server
error (400–599); statuses in 400–599 yield an HTTP-status error
carrying the code, while 1xx, 2xx and 3xx final statuses are returned
as success. -/
theorem send_email_ok_iff_status (c : EmailClient) (rec : SubscriberEmail)
    (subject html text : String) (status : Nat)
    (h : (parseUrl (c.base_url ++ "/email")).isSome = true) :
    ((c.send_email rec subject html text
        (fun _ => TransportOutcome.response status)).1 = Except.ok ()
      ↔ ¬(400 ≤ status ∧ status < 600)) ∧
    (400 ≤ status ∧ status < 600 →
      (c.send_email rec subject html text
        (fun _ => TransportOutcome.response status)).1
        = Except.error (SendError.httpStatus status)) := by
  obtain ⟨u, hu⟩ := Option.isSome_iff_exists.mp h
  by_cases hs : 400 ≤ status ∧ status < 600 <;>
    simp [EmailClient.send_email, httpPost, hu, dispatchOutcome, hs]

/-- C2 witness: at status 204 (a 2xx), the fixture call is `Ok` iff 204
is not in 400–599, which holds. -/
theorem send_email_ok_iff_status_witness :
    ((exClient.send_email exRec "s" "h" "t"
        (fun _ => TransportOutcome.response 204)).1 = Except.ok ()
      ↔ ¬(400 ≤ 204 ∧ 204 < 600)) ∧
    (400 ≤ 204 ∧ 204 < 600 →
      (exClient.send_email exRec "s" "h" "t"
        (fun _ => TransportOutcome.response 204)).1
        = Except.error (SendError.httpStatus 204)) :=
  send_email_ok_iff_status exClient exRec "s" "h" "t" 204 (by decide)

/-- C3, counterexample: the base URL `http:/` is syntactically invalid,
yet `send_email` neither fails with a URL-format error nor refrains
from sending: the concatenation `http:/` ++ `/email` is the valid URL
`http://email`, one request reaches the transport, and the call
succeeds. -/
theorem invalid_base_url_counterexample :
    parseUrl slipClient.base_url = none ∧
    parseUrl (slipClient.base_url ++ "/email")
      = some { scheme := "http", host := "email", pathSegments := [""] } ∧
    (slipClient.send_email exRec "s" "h" "t" exTransport).1 = Except.ok () ∧
    ((slipClient.send_email exRec "s" "h" "t" exTransport).2).length = 1 := by
  exact ⟨rfl, rfl, rfl, rfl⟩

/-- C3, amended: if the concatenated string `base_url ++ "/email"` is
not a parsable URL, `send_email` fails with the URL-format error kind
and no request reaches the transport. (An invalid base URL alone does
not guarantee this: see the counterexample, where the concatenation is
valid.) -/
theorem send_email_invalid_url_no_request (c : EmailClient) (rec : SubscriberEmail)
    (subject html text : String) (transport : HttpRequest → TransportOutcome)
    (h : parseUrl (c.base_url ++ "/email") = none) :
    (c.send_email rec subject html text transport).1 = Except.error SendError.urlFormat ∧
    (c.send_email rec subject html text transport).2 = [] := by
  constructor <;> simp [EmailClient.send_email, httpPost, h]

/-- C3 witness: with the schemeless base URL `localhost`, the
concatenation does not parse, the call fails with the URL-format error
and the trace is empty. -/
theorem send_email_invalid_url_no_request_witness :
    (localClient.send_email exRec "s" "h" "t" exTransport).1
      = Except.error SendError.urlFormat ∧
    (localClient.send_email exRec "s" "h" "t" exTransport).2 = [] :=
  send_email_invalid_url_no_request localClient exRec "s" "h" "t" exTransport (by rfl)

/-- C4: for every call — empty `subject`, `html_content` or
`text_content` included — the serialized body holds exactly one message
whose `To` array has exactly one element, and that message has its
`Subject`, `HtmlPart` and `TextPart` wire keys present. -/
theorem send_email_payload_invariants (c : EmailClient) (rec : SubscriberEmail)
    (subject html text : String) (transport : HttpRequest → TransportOutcome)
    (req : HttpRequest) (h : req ∈ (c.send_email rec subject html text transport).2) :
    ∃ m : Json,
      req.body.getKey "messages" = some (Json.arr [m]) ∧
      (∃ r : Json, m.getKey "To" = some (Json.arr [r])) ∧
      (m.getKey "Subject").isSome = true ∧
      (m.getKey "HtmlPart").isSome = true ∧
      (m.getKey "TextPart").isSome = true := by
  rw [mem_send_email_trace h]
  exact ⟨_, rfl, ⟨_, rfl⟩, rfl, rfl, rfl⟩

/-- C4 witness: the invariants at a concrete call whose subject, HTML
part and text part are all the empty string. -/
theorem send_email_payload_invariants_witness :
    ∃ m : Json,
      (buildRequest "http://example.com/email" "pub-key" "priv-key"
          (exClient.request_body exRec "" "" "").toJson).body.getKey "messages"
        = some (Json.arr [m]) ∧
      (∃ r : Json, m.getKey "To" = some (Json.arr [r])) ∧
      (m.getKey "Subject").isSome = true ∧
      (m.getKey "HtmlPart").isSome = true ∧
      (m.getKey "TextPart").isSome = true :=
  send_email_payload_invariants exClient exRec "" "" "" exTransport
    (buildRequest "http://example.com/email" "pub-key" "priv-key"
      (exClient.request_body exRec "" "" "").toJson)
    (by
      have h : (exClient.send_email exRec "" "" "" exTransport).2
          = [buildRequest "http://example.com/email" "pub-key" "priv-key"
              (exClient.request_body exRec "" "" "").toJson] := by rfl
      rw [h]
      exact List.mem_singleton.mpr rfl)

/-- C5: every request issued by `send_email` carries basic-auth
credentials whose username is the exposed public key and whose password
is the exposed private key, and the `application/json` content type. -/
theorem send_email_auth_and_content_type (c : EmailClient) (rec : SubscriberEmail)
    (subject html text : String) (transport : HttpRequest → TransportOutcome)
    (req : HttpRequest) (h : req ∈ (c.send_email rec subject html text transport).2) :
    req.basicAuth = some (c.api_public_key.expose_secret, c.api_private_key.expose_secret) ∧
    req.contentType = some "application/json" := by
  rw [mem_send_email_trace h]
  exact ⟨rfl, rfl⟩

/-- C5 witness: the fixture request carries the fixture client's
credentials and the JSON content type. -/
theorem send_email_auth_and_content_type_witness :
    exReq.basicAuth = some (exClient.api_public_key.expose_secret,
      exClient.api_private_key.expose_secret) ∧
    exReq.contentType = some "application/json" :=
  send_email_auth_and_content_type exClient exRec "Hi" "<p>Hi</p>" "Hi"
    exTransport exReq exReq_mem

/-- C6: every request issued by `send_email` targets exactly the string
concatenation of the base URL with `/email`. -/
theorem send_email_target_url (c : EmailClient) (rec : SubscriberEmail)
    (subject html text : String) (transport : HttpRequest → TransportOutcome)
    (req : HttpRequest) (h : req ∈ (c.send_email rec subject html text transport).2) :
    req.url = c.base_url ++ "/email" := by
  rw [mem_send_email_trace h]
  rfl

/-- C6 witness: the fixture request's URL is the fixture base URL with
`/email` appended. -/
theorem send_email_target_url_witness :
    exReq.url = exClient.base_url ++ "/email" :=
  send_email_target_url exClient exRec "Hi" "<p>Hi</p>" "Hi" exTransport exReq exReq_mem

/-- C7: construction is a total function of base URL, sender, public
key and private key (it cannot fail), stores those four inputs
verbatim, and — there being no timeout argument — always configures the
default 10-second request timeout. -/
theorem new_never_fails_default_timeout (b : String) (s : SubscriberEmail)
    (pub priv : Secret) :
    EmailClient.new b s pub priv =
      { http_client := { timeout_secs := 10 }
      , base_url := b
      , sender := s
      , api_public_key := pub
      , api_private_key := priv } := rfl

/-- C8: the client state after any `send_email` call, modelled
explicitly by `send_email_post`, agrees with the pre-call client on the
base URL, sender, public key, private key and HTTP client
configuration — the call mutates nothing. -/
theorem send_email_preserves_client (c : EmailClient) (rec : SubscriberEmail)
    (subject html text : String) (transport : HttpRequest → TransportOutcome) :
    ((c.send_email_post rec subject html text transport).2.base_url = c.base_url) ∧
    ((c.send_email_post rec subject html text transport).2.sender = c.sender) ∧
    ((c.send_email_post rec subject html text transport).2.api_public_key
      = c.api_public_key) ∧
    ((c.send_email_post rec subject html text transport).2.api_private_key
      = c.api_private_key) ∧
    ((c.send_email_post rec subject html text transport).2.http_client
      = c.http_client) :=
  ⟨rfl, rfl, rfl, rfl, rfl⟩

/-- C9: for every form submission, `subscribe` responds with status 200
and an empty body, whatever the `email` and `name` fields hold. -/
theorem subscribe_always_200_empty (form : FormData) :
    (subscribe form).status = 200 ∧ (subscribe form).body = "" :=
  ⟨rfl, rfl⟩

/-- C10: on the valid base URL `http://example.com/api/v1` — non-empty
path, no trailing slash — the unused `create_url` helper
(`Url::parse` then `join("email")`) yields `http://example.com/api/email`,
replacing the last path segment, while `send_email`'s concatenation
yields `http://example.com/api/v1/email`; the two constructions are not
equivalent. -/
theorem create_url_differs_from_concat :
    (parseUrl joinClient.base_url).isSome = true ∧
    joinClient.create_url.map Url.toString = some "http://example.com/api/email" ∧
    joinClient.base_url ++ "/email" = "http://example.com/api/v1/email" ∧
    joinClient.create_url.map Url.toString ≠ some (joinClient.base_url ++ "/email") := by
  refine ⟨rfl, by decide, rfl, by decide⟩

end Zero2Prod
